import Mathlib

/-!
Model of src/src/lib/provider.ts (PingerchipsProvider): a synchronization
provider that connects a Yjs document and an awareness instance to a Pusher
channel, with an async document store for full-state snapshots.

The embedding is shallow and event-driven: every handler of the provider is a
pure function from a provider state (plus the outcome of any external call it
awaits, such as a store.set result) to the new state together with the ordered
list of observable effects the handler performs.  Effects cover both the
EventEmitter signals the provider emits (message, awareness, error, disconnect,
status, save, synced, sync) and the channel publishes performed by the
listeners the constructor registers on the provider itself
(channel.trigger on client-message / client-awareness), plus store.set calls
and debug-log lines whose tag distinguishes the two channel error handlers.

Listener registration is modelled by lists of function references.  A
JavaScript bind call produces a fresh function object, so the reference
registered by the constructor (method.bind(this)) and the bare method
reference later passed to off are distinct values; the model separates them
as FunRef.bound and FunRef.raw.
-/

/-- Origin tag carried by a document transaction.  The source compares the
origin against the provider instance with identity equality, so the model only
needs to distinguish the provider itself from every other origin (caller
origins, and the undefined origin used when the store snapshot is applied). -/
inductive Origin
  | provider
  | other
deriving DecidableEq, Repr

/-- Methods of the provider that are registered as event listeners. -/
inductive MethodName
  | onDocumentUpdate
  | onAwarenessUpdate
  | removeSelfFromAwarenessOnUnload
deriving DecidableEq, Repr

/-- A JavaScript function reference used in listener registration.  bound m is
the object produced by m.bind(this) in the constructor; raw m is the bare
method reference this.m later passed to off.  The two are distinct function
objects, which is exactly the inequality bound m ~= raw m. -/
inductive FunRef
  | bound (m : MethodName)
  | raw (m : MethodName)
deriving DecidableEq, Repr

/-- Observable effects of a handler, in the order the source performs them. -/
inductive Emitted
  | message (u : List Nat)
  | channelMessage (u : List Nat)
  | awarenessSig (clients : List Nat)
  | channelAwareness (clients : List Nat)
  | errorSig
  | disconnectSig
  | status (st : String)
  | saveSig (v : Nat)
  | storeSet (content : List Nat)
  | syncedSig (b : Bool)
  | syncSig (b : Bool)
  | log (tag : String)
deriving DecidableEq, Repr

/-- State of one PingerchipsProvider instance together with the pieces of the
shared Yjs document and awareness instance the provider observes.  The Yjs
document is abstracted as the list of update payloads applied to it (CRDT
merge semantics are out of scope); the awareness instance as the list of
client ids that currently have a state entry.  channelOpen models
this.channel being non-null; the listener lists model the listener sets of
the document update event, the awareness update event and the unload hook. -/
structure ProviderState where
  connected : Bool
  version : Nat
  doc : List (List Nat)
  awarenessClients : List Nat
  clientID : Nat
  synced : Bool
  resyncArmed : Bool
  channelOpen : Bool
  docListeners : List FunRef
  awarenessListeners : List FunRef
  unloadListeners : List FunRef
deriving DecidableEq, Repr

/-- Y.encodeStateAsUpdate: the full-state snapshot of the abstracted document,
a pure function of the update log. -/
def encodeStateAsUpdate (doc : List (List Nat)) : List Nat :=
  doc.flatten

/-- isOnline(online?) from the source: with no argument it reads the connected
flag; with a boolean argument it writes it and returns the new value.  The
guard in the source is if (not online and online is not false), which only
takes the read path when the argument is absent. -/
def isOnline (s : ProviderState) (online : Option Bool) : ProviderState × Bool :=
  match online with
  | none => (s, s.connected)
  | some b => ({ s with connected := b }, b)

/-- emit of the message signal: the local listeners see the signal, and the
listener the constructor registers republishes the payload on the channel via
channel.trigger(client-message) whenever this.channel is non-null. -/
def emitMessage (s : ProviderState) (u : List Nat) : List Emitted :=
  Emitted.message u :: (if s.channelOpen then [Emitted.channelMessage u] else [])

/-- emit of the awareness signal: local signal plus the channel republish the
constructor listener performs via channel.trigger(client-awareness) when
this.channel is non-null. -/
def emitAwareness (s : ProviderState) (clients : List Nat) : List Emitted :=
  Emitted.awarenessSig clients ::
    (if s.channelOpen then [Emitted.channelAwareness clients] else [])

/-- save(): encode the current full document state, call store.set with it
(the persistence attempt), emit the error signal when the set rejects, then
emit the save signal carrying the version counter.  setOk is the outcome of
the awaited store.set call. -/
def save (s : ProviderState) (setOk : Bool) : List Emitted :=
  Emitted.storeSet (encodeStateAsUpdate s.doc) ::
    ((if setOk then [] else [Emitted.errorSig]) ++ [Emitted.saveSig s.version])

/-- onDocumentUpdate(update, origin): when the origin differs from the
provider instance, emit the raw delta on the message signal and then run
save(); when the origin is the provider itself, do nothing (echo
suppression). -/
def onDocumentUpdate (s : ProviderState) (update : List Nat) (origin : Origin)
    (setOk : Bool) : List Emitted :=
  if origin ≠ Origin.provider then emitMessage s update ++ save s setOk else []

/-- Dispatch of the document update event fired by a Yjs transaction: the
provider handler runs exactly when the bound listener the constructor
registered via doc.on(update, this.onDocumentUpdate.bind(this)) is still in
the listener list. -/
def fireDocUpdate (s : ProviderState) (u : List Nat) (o : Origin) (setOk : Bool) :
    List Emitted :=
  if FunRef.bound MethodName.onDocumentUpdate ∈ s.docListeners then
    onDocumentUpdate s u o setOk
  else []

/-- applyUpdate(update, origin), the private provider method: increment the
version counter, apply the update to the document via Y.applyUpdate, which
fires the document update event with the given origin. -/
def applyUpdate (s : ProviderState) (u : List Nat) (o : Origin) (setOk : Bool) :
    ProviderState × List Emitted :=
  let s1 := { s with version := s.version + 1, doc := s.doc ++ [u] }
  (s1, fireDocUpdate s1 u o setOk)

/-- A document transaction started outside the provider (a caller edit, with
the callers origin tag): the document changes and its update event fires with
that origin.  The provider version counter is untouched because the providers
applyUpdate method is not involved. -/
def docEdit (s : ProviderState) (u : List Nat) (o : Origin) (setOk : Bool) :
    ProviderState × List Emitted :=
  let s1 := { s with doc := s.doc ++ [u] }
  (s1, fireDocUpdate s1 u o setOk)

/-- onMessage(message, origin): drop the message when the connected flag read
through isOnline() is false; otherwise apply it through applyUpdate with the
origin tagged as the provider instance.  Apply failures are caught and logged
in the source; applies always succeed in the abstracted document, so the
catch is invisible here. -/
def onMessage (s : ProviderState) (m : List Nat) (setOk : Bool) :
    ProviderState × List Emitted :=
  if (isOnline s none).2 then applyUpdate s m Origin.provider setOk else (s, [])

/-- Fold of onMessage over a list of incoming remote messages, accumulating
the emitted effects. -/
def onMessageN (s : ProviderState) (ms : List (List Nat)) (setOk : Bool) :
    ProviderState × List Emitted :=
  match ms with
  | [] => (s, [])
  | m :: rest =>
    let r := onMessage s m setOk
    let rr := onMessageN r.1 rest setOk
    (rr.1, r.2 ++ rr.2)

/-- onAwarenessUpdate: concatenate the added, updated and removed client sets
(the changed argument here), encode an awareness update for them and emit it
on the awareness signal. -/
def onAwarenessUpdate (s : ProviderState) (changed : List Nat) : List Emitted :=
  emitAwareness s changed

/-- awarenessProtocol.removeAwarenessStates: delete the given client entries
from the awareness map; when at least one entry was actually removed, the
awareness update event fires with those clients as the removed set, invoking
the providers handler exactly when its bound listener is still registered. -/
def removeAwareness (s : ProviderState) (clients : List Nat) :
    ProviderState × List Emitted :=
  let removed := clients.filter (fun c => c ∈ s.awarenessClients)
  let s1 := { s with
    awarenessClients := s.awarenessClients.filter (fun c => c ∉ clients) }
  if removed ≠ [] ∧ FunRef.bound MethodName.onAwarenessUpdate ∈ s1.awarenessListeners
  then (s1, onAwarenessUpdate s1 removed)
  else (s1, [])

/-- The synced setter: when the stored value changes, store it and emit the
synced and sync signals carrying the new value. -/
def setSynced (s : ProviderState) (b : Bool) : ProviderState × List Emitted :=
  if s.synced ≠ b then
    ({ s with synced := b }, [Emitted.syncedSig b, Emitted.syncSig b])
  else (s, [])

/-- onDisconnect(): set synced to false through the setter, set the connected
flag to false through isOnline(false), then emit the disconnected status only
if a fresh isOnline() read is true, and finally remove from the awareness map
every client whose id differs from the local doc.clientID. -/
def onDisconnect (s : ProviderState) : ProviderState × List Emitted :=
  let p1 := setSynced s false
  let p2 := isOnline p1.1 (some false)
  let evs2 := if (isOnline p2.1 none).2 then [Emitted.status "disconnected"] else []
  let states := p2.1.awarenessClients.filter (fun c => c ≠ p2.1.clientID)
  let p3 := removeAwareness p2.1 states
  (p3.1, p1.2 ++ evs2 ++ p3.2)

/-- onConnect(): await store.get().  The await is not wrapped in a try block
in the source, so a rejected get aborts the async handler before any further
statement runs: no state change, no signal (the rejection is unhandled).  On
success, a non-null snapshot is applied through applyUpdate with no origin
argument (an origin distinct from the provider), then the connected flag is
set through isOnline(true), the connected status is emitted, and when the
local awareness state is non-null an awareness update scoped to the local
client id is emitted.  getResult is the outcome of the awaited store.get
(error for a rejection, ok none for a null snapshot); setOk feeds the save
that the snapshot apply may cascade into. -/
def onConnect (s : ProviderState) (getResult : Except Unit (Option (List Nat)))
    (setOk : Bool) : ProviderState × List Emitted :=
  match getResult with
  | Except.error _ => (s, [])
  | Except.ok dataOpt =>
    let p1 := match dataOpt with
      | none => (s, ([] : List Emitted))
      | some d => applyUpdate s d Origin.other setOk
    let p2 := isOnline p1.1 (some true)
    let evs3 :=
      if p2.1.clientID ∈ p2.1.awarenessClients then
        emitAwareness p2.1 [p2.1.clientID]
      else []
    (p2.1, p1.2 ++ [Emitted.status "connected"] ++ evs3)

/-- Handler bound to the pusher error event: log the generic tag, emit the
error signal, emit the disconnect signal, which synchronously invokes the
onDisconnect listener the constructor registered. -/
def onPusherError (s : ProviderState) : ProviderState × List Emitted :=
  let p := onDisconnect s
  (p.1, Emitted.log "PUSHER_ERROR" :: Emitted.errorSig :: Emitted.disconnectSig :: p.2)

/-- Handler bound to the pusher subscription error event: only when the error
carries status 403 does it log the auth tag, emit the error signal and emit
the disconnect signal (invoking onDisconnect); any other status is ignored. -/
def onSubscriptionError (s : ProviderState) (st : Int) :
    ProviderState × List Emitted :=
  if st = 403 then
    let p := onDisconnect s
    (p.1, Emitted.log "PUSHER AUTH ERROR" :: Emitted.errorSig ::
      Emitted.disconnectSig :: p.2)
  else (s, [])

/-- The resyncInterval configuration value: absent, explicitly false, or a
number. -/
inductive ResyncConfig
  | undef
  | off
  | interval (n : Int)
deriving DecidableEq, Repr

/-- The resync-interval setup block of the constructor.  The source guards the
whole block with if (resyncInterval or typeof resyncInterval is undefined),
throws inside it when resyncInterval is truthy and below 3000, and otherwise
arms a timer with period resyncInterval or 5000.  A numeric value of 0 is
falsy in JavaScript, so the block is skipped entirely: no throw, no timer.
The result is the armed period (none when no timer is armed) or the thrown
error message. -/
def setupResyncInterval : ResyncConfig → Except String (Option Int)
  | ResyncConfig.undef => Except.ok (some 5000)
  | ResyncConfig.off => Except.ok none
  | ResyncConfig.interval n =>
    if n ≠ 0 then
      if n < 3000 then Except.error "resync interval of less than 3 seconds"
      else Except.ok (some n)
    else Except.ok none

/-- One tick of the resync timer: emit the full current document state on the
message signal (whose channel listener republishes it when the channel is
open) and additionally trigger client-message on the channel directly when
the channel is non-null.  The tick reads only the current state, never any
edit history, so it behaves identically whether or not edits occurred since
the previous tick. -/
def resyncTick (s : ProviderState) : List Emitted :=
  let full := encodeStateAsUpdate s.doc
  emitMessage s full ++ (if s.channelOpen then [Emitted.channelMessage full] else [])

/-- destroy(): clear the resync timer when armed; remove the unload hook,
passing the same raw reference that was registered, so it detaches; call off
on the awareness and document update events passing the raw method references
this.onAwarenessUpdate and this.onDocumentUpdate, although the constructor
registered bind copies, so those removals match nothing; finally disconnect
and release the channel.  Every step is guarded in the source, so the
function is total: no call path throws. -/
def destroy (s : ProviderState) : ProviderState :=
  { s with
    resyncArmed := false,
    unloadListeners := s.unloadListeners.filter
      (fun f => f ≠ FunRef.raw MethodName.removeSelfFromAwarenessOnUnload),
    awarenessListeners := s.awarenessListeners.filter
      (fun f => f ≠ FunRef.raw MethodName.onAwarenessUpdate),
    docListeners := s.docListeners.filter
      (fun f => f ≠ FunRef.raw MethodName.onDocumentUpdate),
    channelOpen := false }

/-- A provider state as the constructor leaves it once the subscription has
succeeded and onConnect has run: connected, channel open, the bound document
and awareness listeners registered, the raw unload hook registered. -/
def sampleOnline : ProviderState :=
  { connected := true
    version := 0
    doc := [[5]]
    awarenessClients := [1, 2]
    clientID := 1
    synced := true
    resyncArmed := true
    channelOpen := true
    docListeners := [FunRef.bound MethodName.onDocumentUpdate]
    awarenessListeners := [FunRef.bound MethodName.onAwarenessUpdate]
    unloadListeners := [FunRef.raw MethodName.removeSelfFromAwarenessOnUnload] }

/-- The same state with the connected flag cleared (session offline). -/
def sampleOffline : ProviderState :=
  { sampleOnline with connected := false }

/-- Effects relevant to the single-broadcast, single-persistence property of a
local edit: the outbound message signal and the store.set call. -/
def isDocEffect (e : Emitted) : Bool :=
  match e with
  | Emitted.message _ => true
  | Emitted.storeSet _ => true
  | _ => false

theorem onMessage_online (s : ProviderState) (m : List Nat) (ok : Bool)
    (h : s.connected = true) :
    onMessage s m ok =
      ({ s with version := s.version + 1, doc := s.doc ++ [m] }, []) := by
  simp [onMessage, isOnline, h, applyUpdate, fireDocUpdate, onDocumentUpdate]

theorem onMessageN_online (ms : List (List Nat)) (ok : Bool) :
    ∀ s : ProviderState, s.connected = true →
      onMessageN s ms ok =
        ({ s with version := s.version + ms.length, doc := s.doc ++ ms }, []) := by
  induction ms with
  | nil => intro s h; simp [onMessageN]
  | cons m rest ih =>
    intro s h
    rw [onMessageN, onMessage_online s m ok h]
    dsimp only
    rw [ih { s with version := s.version + 1, doc := s.doc ++ [m] } h]
    simp [List.length_cons, List.append_assoc, Nat.add_comm, Nat.add_assoc,
      Nat.add_left_comm]

/-- Claim C1: while the session is online, onMessage applies each remote delta
through applyUpdate with the origin tagged as the provider instance; the
resulting document update event with that origin makes onDocumentUpdate emit
nothing, so folding onMessage over any number of remote messages emits no
effect at all — in particular zero outbound message broadcasts and zero
persistence attempts — while every delta reaches the document. -/
theorem echo_suppression (s : ProviderState) (ms : List (List Nat)) (ok : Bool)
    (h : s.connected = true) :
    (onMessageN s ms ok).2 = [] ∧ (onMessageN s ms ok).1.doc = s.doc ++ ms := by
  rw [onMessageN_online ms ok s h]
  simp

theorem echo_suppression_witness :
    (onMessageN sampleOnline [[1], [2], [3]] true).2 = [] ∧
    (onMessageN sampleOnline [[1], [2], [3]] true).1.doc =
      sampleOnline.doc ++ [[1], [2], [3]] :=
  echo_suppression sampleOnline [[1], [2], [3]] true rfl

/-- Claim C2: while the connected flag is false, onMessage returns before
applying anything — the state (document log, version counter, everything
else) is unchanged and no effect is performed — and, since no record of the
message survives, a later connect reconciliation behaves exactly as if the
message had never arrived (no automatic retry). -/
theorem offline_discard (s : ProviderState) (m : List Nat) (ok : Bool)
    (h : s.connected = false) :
    onMessage s m ok = (s, []) ∧
    (∀ (g : Except Unit (Option (List Nat))) (k : Bool),
      onConnect (onMessage s m ok).1 g k = onConnect s g k) := by
  have h1 : onMessage s m ok = (s, []) := by simp [onMessage, isOnline, h]
  exact ⟨h1, fun g k => by rw [h1]⟩

theorem offline_discard_witness :
    onMessage sampleOffline [9] true = (sampleOffline, []) :=
  (offline_discard sampleOffline [9] true rfl).1

/-- Claim C3: a document update event whose origin is not the provider
instance (a local edit) makes onDocumentUpdate emit exactly one outbound
message signal carrying the raw delta followed by exactly one store.set call
carrying the full encoded snapshot of the updated document, in that order. -/
theorem local_edit_broadcast_and_persist (s : ProviderState) (u : List Nat)
    (o : Origin) (ok : Bool)
    (_hon : s.connected = true)
    (ho : o ≠ Origin.provider)
    (hl : FunRef.bound MethodName.onDocumentUpdate ∈ s.docListeners) :
    ((docEdit s u o ok).2).filter isDocEffect =
      [Emitted.message u,
       Emitted.storeSet (encodeStateAsUpdate ((docEdit s u o ok).1.doc))] := by
  simp only [docEdit, fireDocUpdate, onDocumentUpdate, emitMessage, save, ho,
    ne_eq, not_false_eq_true, if_true, hl, if_pos]
  cases hc : s.channelOpen <;> cases ok <;> simp [isDocEffect]

theorem local_edit_broadcast_and_persist_witness :
    ((docEdit sampleOnline [7] Origin.other true).2).filter isDocEffect =
      [Emitted.message [7],
       Emitted.storeSet
         (encodeStateAsUpdate ((docEdit sampleOnline [7] Origin.other true).1.doc))] :=
  local_edit_broadcast_and_persist sampleOnline [7] Origin.other true rfl
    (by decide) (by decide)

/-- Claim C4 (evaluation at the failing input): a rejected store.get makes
onConnect return with no state change and no effect at all — the connected
flag is not set, no connected status and no error signal is emitted, contrary
to the claim that the session reports the failure and proceeds online.  For
contrast, the second conjunct shows the save path really is best-effort: a
rejected store.set still performs the persistence attempt, emits the error
signal and completes with the save signal. -/
theorem store_get_failure_aborts_connect :
    (∀ (s : ProviderState) (ok : Bool), onConnect s (Except.error ()) ok = (s, [])) ∧
    (∀ s : ProviderState, save s false =
      [Emitted.storeSet (encodeStateAsUpdate s.doc), Emitted.errorSig,
       Emitted.saveSig s.version]) := by
  exact ⟨fun s ok => rfl, fun s => by simp [save]⟩

/-- Claim C5 (counterexample): a configured resyncInterval of 0 is below the
3000ms floor yet construction does not throw — the value is falsy, the whole
resync block is skipped, and the timer is silently disabled. -/
theorem resync_floor_counterexample :
    setupResyncInterval (ResyncConfig.interval 0) = Except.ok none ∧
    (0 : Int) < 3000 :=
  ⟨rfl, by decide⟩

/-- Claim C5 (amended): a nonzero configured resyncInterval below 3000 throws
at construction; an omitted resyncInterval arms the 5000ms default; false
disables the timer; the value 0, being falsy, also disables the timer without
throwing; and any value of at least 3000 is used unchanged. -/
theorem resync_config_amended :
    (∀ n : Int, n ≠ 0 → n < 3000 →
      setupResyncInterval (ResyncConfig.interval n) =
        Except.error "resync interval of less than 3 seconds") ∧
    setupResyncInterval ResyncConfig.undef = Except.ok (some 5000) ∧
    setupResyncInterval ResyncConfig.off = Except.ok none ∧
    setupResyncInterval (ResyncConfig.interval 0) = Except.ok none ∧
    (∀ n : Int, 3000 ≤ n →
      setupResyncInterval (ResyncConfig.interval n) = Except.ok (some n)) := by
  refine ⟨?_, rfl, rfl, rfl, ?_⟩
  · intro n h1 h2
    simp [setupResyncInterval, h1, h2]
  · intro n h
    have h1 : n ≠ 0 := by omega
    have h2 : ¬ n < 3000 := by omega
    simp [setupResyncInterval, h1, h2]

theorem resync_config_amended_witness :
    setupResyncInterval (ResyncConfig.interval 2999) =
      Except.error "resync interval of less than 3 seconds" ∧
    setupResyncInterval (ResyncConfig.interval 3000) = Except.ok (some 3000) :=
  ⟨resync_config_amended.1 2999 (by decide) (by decide),
   resync_config_amended.2.2.2.2 3000 (by decide)⟩

/-- Claim C6: a resync tick encodes the full current document state and emits
it both through the local outbound message signal and as a channel publish of
the document message event (when the channel handle is open).  The tick is a
function of the current state alone, so this holds identically when zero
edits occurred since the previous tick. -/
theorem resync_tick_full_state (s : ProviderState) (h : s.channelOpen = true) :
    Emitted.message (encodeStateAsUpdate s.doc) ∈ resyncTick s ∧
    Emitted.channelMessage (encodeStateAsUpdate s.doc) ∈ resyncTick s := by
  simp [resyncTick, emitMessage, h]

theorem resync_tick_full_state_witness :
    Emitted.message (encodeStateAsUpdate sampleOnline.doc) ∈ resyncTick sampleOnline :=
  (resync_tick_full_state sampleOnline rfl).1

theorem filter_not_mem_filter_ne (l : List Nat) (cid : Nat) :
    l.filter (fun c => c ∉ l.filter (fun c => c ≠ cid)) =
      l.filter (fun c => c = cid) := by
  apply List.filter_congr
  intro c hc
  by_cases h : c = cid <;> simp [List.mem_filter, hc, h]

theorem onDisconnect_state (s : ProviderState) :
    (onDisconnect s).1 =
      { s with
        synced := false
        connected := false
        awarenessClients := s.awarenessClients.filter
          (fun c => c ∉ s.awarenessClients.filter (fun c => c ≠ s.clientID)) } := by
  by_cases hsy : s.synced = true <;>
    simp [onDisconnect, setSynced, isOnline, removeAwareness, hsy,
      apply_ite Prod.fst, ite_self] at hsy ⊢

theorem destroy_destroy (t : ProviderState) : destroy (destroy t) = destroy t := by
  simp [destroy]

theorem onDisconnect_events (s : ProviderState) :
    (onDisconnect s).2 =
      (if s.synced = true then [Emitted.syncedSig false, Emitted.syncSig false]
        else []) ++
      (if s.awarenessClients.filter (fun c => c ≠ s.clientID) ≠ [] ∧
          FunRef.bound MethodName.onAwarenessUpdate ∈ s.awarenessListeners then
        Emitted.awarenessSig (s.awarenessClients.filter (fun c => c ≠ s.clientID)) ::
          (if s.channelOpen then
            [Emitted.channelAwareness
              (s.awarenessClients.filter (fun c => c ≠ s.clientID))]
          else [])
      else []) := by
  have hr : s.awarenessClients.filter
      (fun a => decide (a ∈ s.awarenessClients) && !decide (a = s.clientID)) =
      s.awarenessClients.filter (fun a => !decide (a = s.clientID)) := by
    apply List.filter_congr
    intro a ha
    simp [ha]
  by_cases hsy : s.synced = true <;>
    simp [onDisconnect, setSynced, isOnline, removeAwareness, onAwarenessUpdate,
      emitAwareness, hsy, hr, apply_ite Prod.snd] at hsy ⊢

theorem onDisconnect_no_log (s : ProviderState) (tg : String) :
    Emitted.log tg ∉ (onDisconnect s).2 := by
  rw [onDisconnect_events]
  split_ifs <;> simp

/-- Claim C10: onDisconnect never emits a status signal: the disconnected
status emission is guarded by an isOnline() read performed after
isOnline(false) already cleared the connected flag in the same handler, so
the guard is always false and no status event appears among the handlers
effects, for every starting state. -/
theorem disconnect_never_emits_status (s : ProviderState) (st : String) :
    Emitted.status st ∉ (onDisconnect s).2 := by
  rw [onDisconnect_events]
  split_ifs <;> simp

/-- Claim C9: a subscription error with status 403 makes the handler emit the
error signal and the disconnect signal, and the emitted disconnect runs the
registered onDisconnect listener, leaving the connected flag false; the
report carries the auth log tag, which never occurs among the effects of the
generic channel error handler, distinguishing the two failure reports. -/
theorem auth_error_reported (s : ProviderState) :
    Emitted.errorSig ∈ (onSubscriptionError s 403).2 ∧
    Emitted.disconnectSig ∈ (onSubscriptionError s 403).2 ∧
    (onSubscriptionError s 403).1.connected = false ∧
    Emitted.log "PUSHER AUTH ERROR" ∈ (onSubscriptionError s 403).2 ∧
    (∀ t : ProviderState, Emitted.log "PUSHER AUTH ERROR" ∉ (onPusherError t).2) := by
  refine ⟨by simp [onSubscriptionError], by simp [onSubscriptionError], ?_,
    by simp [onSubscriptionError], ?_⟩
  · have h1 : (onSubscriptionError s 403).1 = (onDisconnect s).1 := by
      simp [onSubscriptionError]
    rw [h1, onDisconnect_state]
  · intro t hmem
    have h1 : (onPusherError t).2 =
        Emitted.log "PUSHER_ERROR" :: Emitted.errorSig :: Emitted.disconnectSig ::
          (onDisconnect t).2 := rfl
    rw [h1] at hmem
    simp only [List.mem_cons] at hmem
    rcases hmem with h | h | h | h
    · exact absurd h (by decide)
    · exact absurd h (by decide)
    · exact absurd h (by decide)
    · exact absurd h (onDisconnect_no_log t "PUSHER AUTH ERROR")

/-- Claim C7 (counterexample): from a connected state with an open channel and
a remote participant in the awareness map, onDisconnect is not a local-only
cleanup: removing the remote awareness entries fires the awareness update
handler, which publishes the removal on the channel (a client-awareness
trigger for client 2 here). -/
theorem disconnect_broadcast_counterexample :
    Emitted.channelAwareness [2] ∈ (onDisconnect sampleOnline).2 := by decide

/-- Claim C7 (amended): on every disconnect the synced flag and the connected
flag become false and the awareness entries of every participant other than
the local client id are removed; however, when the channel handle is still
open and the awareness listener is attached and a non-local participant
exists, the removal is re-broadcast on the channel rather than staying local;
a subsequent destroy() completes (the model function is total), is idempotent,
and leaves the channel released. -/
theorem disconnect_cleanup_amended (s : ProviderState)
    (hch : s.channelOpen = true)
    (hl : FunRef.bound MethodName.onAwarenessUpdate ∈ s.awarenessListeners)
    (hnl : s.awarenessClients.filter (fun c => c ≠ s.clientID) ≠ []) :
    (onDisconnect s).1.synced = false ∧
    (onDisconnect s).1.connected = false ∧
    (onDisconnect s).1.awarenessClients =
      s.awarenessClients.filter (fun c => c = s.clientID) ∧
    Emitted.channelAwareness (s.awarenessClients.filter (fun c => c ≠ s.clientID))
      ∈ (onDisconnect s).2 ∧
    destroy (destroy (onDisconnect s).1) = destroy (onDisconnect s).1 ∧
    (destroy (onDisconnect s).1).channelOpen = false := by
  refine ⟨?_, ?_, ?_, ?_, destroy_destroy _, ?_⟩
  · rw [onDisconnect_state]
  · rw [onDisconnect_state]
  · rw [onDisconnect_state]
    exact filter_not_mem_filter_ne s.awarenessClients s.clientID
  · have hex : ∃ x ∈ s.awarenessClients, ¬ x = s.clientID := by
      obtain ⟨x, hx⟩ := List.exists_mem_of_ne_nil _ hnl
      rcases List.mem_filter.mp hx with ⟨h1, h2⟩
      exact ⟨x, h1, by simpa using h2⟩
    rw [onDisconnect_events]
    simp [hnl, hl, hch, hex]
  · simp [destroy]

theorem disconnect_cleanup_amended_witness :
    (onDisconnect sampleOnline).1.awarenessClients =
      sampleOnline.awarenessClients.filter (fun c => c = sampleOnline.clientID) :=
  (disconnect_cleanup_amended sampleOnline rfl (by decide) (by decide)).2.2.1

/-- Claim C8 (evaluation at the failing input): starting from the listener
registrations the constructor performs, destroy() cancels the resync timer,
releases the channel, and detaches the unload hook (whose registration used
the same raw reference), but the document and awareness update listeners
survive untouched — the off calls pass the raw method references while the
registrations were bind copies — so a document update after destroy still
invokes the providers handler, which still emits the outbound message signal;
a second destroy() changes nothing and does not throw. -/
theorem destroy_fails_to_detach (s : ProviderState)
    (hd : s.docListeners = [FunRef.bound MethodName.onDocumentUpdate])
    (ha : s.awarenessListeners = [FunRef.bound MethodName.onAwarenessUpdate])
    (hu : s.unloadListeners = [FunRef.raw MethodName.removeSelfFromAwarenessOnUnload]) :
    (destroy s).resyncArmed = false ∧
    (destroy s).channelOpen = false ∧
    (destroy s).unloadListeners = [] ∧
    (destroy s).docListeners = [FunRef.bound MethodName.onDocumentUpdate] ∧
    (destroy s).awarenessListeners = [FunRef.bound MethodName.onAwarenessUpdate] ∧
    (∀ (u : List Nat) (o : Origin) (ok : Bool), o ≠ Origin.provider →
      Emitted.message u ∈ (docEdit (destroy s) u o ok).2) ∧
    destroy (destroy s) = destroy s := by
  refine ⟨rfl, rfl, ?_, ?_, ?_, ?_, destroy_destroy s⟩
  · simp [destroy, hu]
  · simp [destroy, hd]
  · simp [destroy, ha]
  · intro u o ok ho
    simp [docEdit, fireDocUpdate, destroy, hd, onDocumentUpdate, ho, emitMessage]

theorem destroy_fails_to_detach_witness :
    (destroy sampleOnline).docListeners = [FunRef.bound MethodName.onDocumentUpdate] :=
  (destroy_fails_to_detach sampleOnline rfl rfl rfl).2.2.2.1
